import Mathlib

/-!
Shallow embedding of the product CRUD service:
the data-access layer (`internal/repository/product.go`) and the HTTP
handlers (`internal/handlers/product.go`).

Modelling conventions:
- `time.Now()` is a logical clock `Store.now : Nat`; every successful
  mutating repository call advances it, so records created in sequence
  carry strictly increasing creation timestamps.
- Go errors are the strings the source builds with `fmt.Errorf`; the
  handlers branch on them only via equality with "product not found",
  exactly as the source does.
- Store round-trips can fault; a fault is injected as an
  `Option String` argument carrying the underlying driver message
  (`none` means the statement executed normally).  `Exec`/`RowsAffected`
  are separate round-trips in the source, so `Update`/`Delete` take two
  fault slots.
- `float64 UnitPrice` is carried through unchanged by every code path
  the claims touch, so it is modelled as `Int`; no arithmetic is done
  on it anywhere in the source.
-/

/-- Record model `models.Product` from `internal/models/product.go`. -/
structure Product where
  id : Int
  sku : String
  name : String
  description : String
  quantity : Int
  unitPrice : Int
  createdAt : Nat
  updatedAt : Nat
  deriving DecidableEq, Repr

/-- The relational store behind the data-access layer: the `products`
table rows, the `SERIAL` id sequence, and the wall clock. -/
structure Store where
  rows : List Product
  nextId : Int
  now : Nat
  deriving DecidableEq, Repr

/-- The store of a fresh schema: no rows, id sequence at 1. -/
def emptyStore : Store := { rows := [], nextId := 1, now := 0 }

/-- One decimal digit, as the Go `strconv` package accepts it. -/
def digitVal (c : Char) : Option Nat :=
  if '0' ≤ c ∧ c ≤ '9' then some (c.toNat - '0'.toNat) else none

/-- Digit-string accumulation inside `strconv.Atoi`: empty digit runs
are rejected, any non-digit rejects the whole string. -/
def parseDigits (cs : List Char) : Option Nat :=
  if cs.isEmpty then none
  else cs.foldl (fun acc c =>
    match acc, digitVal c with
    | some n, some d => some (n * 10 + d)
    | _, _ => none) (some 0)

/-- Model of `strconv.Atoi`: optional sign, decimal digits, 64-bit `int`
range check (out-of-range input returns an error, hence `none`). -/
def atoi (s : String) : Option Int :=
  match s.toList with
  | [] => none
  | '+' :: rest =>
      (parseDigits rest).bind fun n =>
        if n < 2 ^ 63 then some (n : Int) else none
  | '-' :: rest =>
      (parseDigits rest).bind fun n =>
        if n ≤ 2 ^ 63 then some (-(n : Int)) else none
  | cs =>
      (parseDigits cs).bind fun n =>
        if n < 2 ^ 63 then some (n : Int) else none

/-- The driver message PostgreSQL produces when the `sku` unique
constraint rejects an insert. -/
def dupKeyMsg : String :=
  "pq: duplicate key value violates unique constraint \x7bproducts_sku_key\x7d"

/-- The driver message PostgreSQL produces when `LIMIT`/`OFFSET` is
negative. -/
def negWindowMsg : String := "pq: LIMIT must not be negative"

/-- Embedding of `productRepo.Create` (repository/product.go:38-66): stamps both
timestamps with the current clock, runs the `INSERT ... RETURNING id`,
and wraps any statement failure — the unique-constraint violation
included — as `failed to create product: <cause>`.  On success the
returned product carries the id handed out by the store. -/
def repoCreate (s : Store) (fault : Option String) (product : Product) :
    Except String (Store × Product) :=
  let p := { product with createdAt := s.now, updatedAt := s.now }
  match fault with
  | some msg => .error ("failed to create product: " ++ msg)
  | none =>
      if s.rows.any (fun r => r.sku == p.sku) then
        .error ("failed to create product: " ++ dupKeyMsg)
      else
        let p := { p with id := s.nextId }
        .ok ({ s with
                rows := s.rows ++ [p]
                nextId := s.nextId + 1
                now := s.now + 1 }, p)

/-- Embedding of `productRepo.GetByID` (repository/product.go:68-96): `sql.ErrNoRows`
becomes the bare string `product not found`; any other query fault is
wrapped as `failed to get product: <cause>`. -/
def repoGetByID (s : Store) (fault : Option String) (id : Int) :
    Except String Product :=
  match fault with
  | some msg => .error ("failed to get product: " ++ msg)
  | none =>
      match s.rows.find? (fun r => r.id == id) with
      | none => .error "product not found"
      | some p => .ok p

/-- Embedding of `productRepo.GetBySKU` (repository/product.go:98-126): identical to
`GetByID` but keyed on `sku`. -/
def repoGetBySKU (s : Store) (fault : Option String) (sku : String) :
    Except String Product :=
  match fault with
  | some msg => .error ("failed to get product: " ++ msg)
  | none =>
      match s.rows.find? (fun r => r.sku == sku) with
      | none => .error "product not found"
      | some p => .ok p

/-- The row rewrite performed by the `UPDATE` statement
(repository/product.go:129-138): the row whose `id` matches has every
mutable column and `updated_at` overwritten; `id` and `created_at` are
not in the SET list and other rows are untouched. -/
def updateRow (p : Product) (r : Product) : Product :=
  if r.id == p.id then
    { r with
      sku := p.sku
      name := p.name
      description := p.description
      quantity := p.quantity
      unitPrice := p.unitPrice
      updatedAt := p.updatedAt }
  else r

/-- Embedding of `productRepo.Update` (repository/product.go:128-166): stamps
`UpdatedAt` with the clock, runs the `UPDATE`, then asks for the
affected-row count; a zero count becomes `product not found`, the two
round-trip faults are wrapped with their own contexts. -/
def repoUpdate (s : Store) (execFault rowsFault : Option String)
    (product : Product) : Except String (Store × Product) :=
  let p := { product with updatedAt := s.now }
  match execFault with
  | some msg => .error ("failed to update product: " ++ msg)
  | none =>
      match rowsFault with
      | some msg => .error ("failed to get rows affected: " ++ msg)
      | none =>
          if s.rows.any (fun r => r.id == p.id) then
            .ok ({ s with
                    rows := s.rows.map (updateRow p)
                    now := s.now + 1 }, p)
          else
            .error "product not found"

/-- Embedding of `productRepo.Delete` (repository/product.go:168-186): runs the
`DELETE`, then the affected-row count; zero rows affected becomes
`product not found`. -/
def repoDelete (s : Store) (execFault rowsFault : Option String)
    (id : Int) : Except String Store :=
  match execFault with
  | some msg => .error ("failed to delete product: " ++ msg)
  | none =>
      match rowsFault with
      | some msg => .error ("failed to get rows affected: " ++ msg)
      | none =>
          if s.rows.any (fun r => r.id == id) then
            .ok { s with
                    rows := s.rows.filter (fun r => !(r.id == id))
                    now := s.now + 1 }
          else
            .error "product not found"

/-- The `ORDER BY created_at DESC` pass over the table rows. -/
def sortByCreatedDesc (l : List Product) : List Product :=
  List.insertionSort (fun a b => b.createdAt ≤ a.createdAt) l

/-- Embedding of `productRepo.List` (repository/product.go:188-227): query faults are
wrapped as `failed to list products: <cause>`; the store rejects a
negative `LIMIT`/`OFFSET`; otherwise the rows ordered by creation time
descending, windowed by offset then limit, are returned (`products`
stays a nil slice — the empty list — when the window is empty). -/
def repoList (s : Store) (fault : Option String) (limit offset : Int) :
    Except String (List Product) :=
  match fault with
  | some msg => .error ("failed to list products: " ++ msg)
  | none =>
      if limit < 0 ∨ offset < 0 then
        .error ("failed to list products: " ++ negWindowMsg)
      else
        .ok (((sortByCreatedDesc s.rows).drop offset.toNat).take limit.toNat)

/-- Embedding of `productRepo.Count` (repository/product.go:229-239). -/
def repoCount (s : Store) (fault : Option String) : Except String Nat :=
  match fault with
  | some msg => .error ("failed to count products: " ++ msg)
  | none => .ok s.rows.length

/-- The only discrimination the handlers apply to a repository error:
equality of its text with `product not found`
(handlers/product.go:115, 229, 273).  Everything else is treated as an
internal fault and mapped to 500. -/
inductive ErrKind where
  | notFound
  | internalFault
  deriving DecidableEq, Repr

/-- Classify a repository error exactly the way the handlers do. -/
def classifyRepoError (e : String) : ErrKind :=
  if e = "product not found" then .notFound else .internalFault

/-- The payload slot of the response envelope
(`models.NewSuccessResponse` / `NewPaginatedResponse`): absent, a single
record, or a list of records. -/
inductive Payload where
  | empty
  | one (p : Product)
  | many (ps : List Product)
  deriving DecidableEq, Repr

/-- Pagination metadata `models.PaginationMeta`: the echoed limit/offset and the
independently computed total. -/
structure PaginationMeta where
  limit : Int
  offset : Int
  total : Nat
  deriving DecidableEq, Repr

/-- The JSON response envelope a handler emits: HTTP status, message,
payload, and (list route only) pagination metadata. -/
structure Response where
  status : Nat
  message : String
  payload : Payload
  pagination : Option PaginationMeta
  deriving DecidableEq, Repr

/-- A 4xx/5xx envelope as `respondWithError` builds it. -/
def errResponse (code : Nat) (message : String) : Response :=
  { status := code, message := message, payload := .empty,
    pagination := none }

/-- The effective limit of `ListProducts` (handlers/product.go:42-52):
absent (`Get` returns the empty string), non-numeric, or non-positive
values keep the default 50; a parsed value above 100 is clamped to
100. -/
def effectiveLimit (l : String) : Int :=
  if l = "" then 50
  else
    match atoi l with
    | some v => if v > 0 then (if v > 100 then 100 else v) else 50
    | none => 50

/-- The effective offset of `ListProducts` (handlers/product.go:54-58):
absent, non-numeric, or negative values keep the default 0. -/
def effectiveOffset (o : String) : Int :=
  if o = "" then 0
  else
    match atoi o with
    | some v => if v ≥ 0 then v else 0
    | none => 0

/-- Embedding of `ProductHandler.ListProducts` (handlers/product.go:39-82): computes
the effective window, lists, counts, and on success responds 200 with
the records plus pagination metadata echoing the effective values. -/
def ListProducts (s : Store) (listFault countFault : Option String)
    (limitParam offsetParam : String) : Response :=
  let limit := effectiveLimit limitParam
  let offset := effectiveOffset offsetParam
  match repoList s listFault limit offset with
  | .error _ => errResponse 500 "Failed to retrieve products"
  | .ok products =>
      match repoCount s countFault with
      | .error _ => errResponse 500 "Failed to count products"
      | .ok total =>
          { status := 200
            message := "Products retrieved successfully"
            payload := .many products
            pagination := some { limit := limit, offset := offset, total := total } }

/-- Embedding of `ProductHandler.GetProduct` (handlers/product.go:98-127): empty or
non-numeric id → 400; repository `product not found` → 404; any other
repository error → 500; success → 200 with the record. -/
def GetProduct (s : Store) (fault : Option String) (idStr : String) :
    Response :=
  if idStr = "" then errResponse 400 "Product ID is required"
  else
    match atoi idStr with
    | none => errResponse 400 "Invalid product ID"
    | some id =>
        match repoGetByID s fault id with
        | .error e =>
            if e = "product not found" then
              errResponse 404 "Product not found"
            else
              errResponse 500 "Failed to retrieve product"
        | .ok p =>
            { status := 200
              message := "Product retrieved successfully"
              payload := .one p
              pagination := none }

/-- Embedding of `ProductHandler.CreateProduct` (handlers/product.go:143-178).  The
decoded body is `none` when the JSON is malformed.  The `GetBySKU`
pre-check produces the 409 only when it succeeds (`err == nil &&
existing != nil`); any lookup error — not-found or otherwise — is
discarded and `Create` runs anyway, whose own failure is always mapped
to 500. -/
def CreateProduct (s : Store) (skuFault createFault : Option String)
    (body : Option Product) : Response × Store :=
  match body with
  | none => (errResponse 400 "Invalid request body", s)
  | some product =>
      if product.sku = "" then (errResponse 400 "SKU is required", s)
      else if product.name = "" then
        (errResponse 400 "Product name is required", s)
      else
        match repoGetBySKU s skuFault product.sku with
        | .ok _ =>
            (errResponse 409 "Product with this SKU already exists", s)
        | .error _ =>
            match repoCreate s createFault product with
            | .error _ => (errResponse 500 "Failed to create product", s)
            | .ok (s2, p) =>
                ({ status := 201
                   message := "Product created successfully"
                   payload := .one p
                   pagination := none }, s2)

/-- Embedding of `ProductHandler.UpdateProduct` (handlers/product.go:195-241): the
path id overwrites the id of the decoded record before validation and the
`Update` call; repository `product not found` → 404, other repository
errors → 500, success → 200 with the updated record. -/
def UpdateProduct (s : Store) (execFault rowsFault : Option String)
    (idStr : String) (body : Option Product) : Response × Store :=
  if idStr = "" then (errResponse 400 "Product ID is required", s)
  else
    match atoi idStr with
    | none => (errResponse 400 "Invalid product ID", s)
    | some id =>
        match body with
        | none => (errResponse 400 "Invalid request body", s)
        | some decoded =>
            let product := { decoded with id := id }
            if product.sku = "" then (errResponse 400 "SKU is required", s)
            else if product.name = "" then
              (errResponse 400 "Product name is required", s)
            else
              match repoUpdate s execFault rowsFault product with
              | .error e =>
                  if e = "product not found" then
                    (errResponse 404 "Product not found", s)
                  else
                    (errResponse 500 "Failed to update product", s)
              | .ok (s2, p) =>
                  ({ status := 200
                     message := "Product updated successfully"
                     payload := .one p
                     pagination := none }, s2)

/-- Embedding of `ProductHandler.DeleteProduct` (handlers/product.go:257-285):
repository `product not found` → 404, other repository errors → 500,
success → 204 with an empty payload. -/
def DeleteProduct (s : Store) (execFault rowsFault : Option String)
    (idStr : String) : Response × Store :=
  if idStr = "" then (errResponse 400 "Product ID is required", s)
  else
    match atoi idStr with
    | none => (errResponse 400 "Invalid product ID", s)
    | some id =>
        match repoDelete s execFault rowsFault id with
        | .error e =>
            if e = "product not found" then
              (errResponse 404 "Product not found", s)
            else
              (errResponse 500 "Failed to delete product", s)
        | .ok s2 =>
            ({ status := 204
               message := "Product deleted successfully"
               payload := .empty
               pagination := none }, s2)

/-- Chain helper for building concrete scenarios: the store after a
successful `Create`, the unchanged store if it failed. -/
def createOk (s : Store) (p : Product) : Store :=
  match repoCreate s none p with
  | .ok (s2, _) => s2
  | .error _ => s

/-- A body carrying only a SKU and a name, as the concrete scenarios
use it. -/
def mkProduct (sku name : String) : Product :=
  { id := 0, sku := sku, name := name, description := "", quantity := 0,
    unitPrice := 0, createdAt := 0, updatedAt := 0 }

/-- A one-row store: the result of creating SKU `A` in a fresh store. -/
def demoStore : Store := createOk emptyStore (mkProduct "A" "Alpha")

/-- The store after creating SKUs A, B, C, D, E in sequence. -/
def store5 : Store :=
  createOk (createOk (createOk (createOk (createOk emptyStore
    (mkProduct "A" "PA")) (mkProduct "B" "PB")) (mkProduct "C" "PC"))
    (mkProduct "D" "PD")) (mkProduct "E" "PE")

/-- The string `product not found` has 17 characters; a wrapped error with a longer
operation context can never equal it. -/
theorem append_ne_notFound (pre msg : String) (h : 17 < pre.length) :
    pre ++ msg ≠ "product not found" := by
  intro hc
  have hl := congrArg String.length hc
  have h17 : ("product not found" : String).length = 17 := rfl
  rw [String.length_append, h17] at hl
  omega

/-- Every wrapped repository error is classified as an internal fault by
the string test of the handlers. -/
theorem classify_wrapped_internal (pre msg : String) (h : 17 < pre.length) :
    classifyRepoError (pre ++ msg) = .internalFault := by
  unfold classifyRepoError
  rw [if_neg (append_ne_notFound pre msg h)]

theorem atoi_empty : atoi "" = none := rfl

/-- C4: `Update` and `Delete` fail with the not-found value exactly when
zero rows were affected, succeed when a row was affected, and wrap any
other store fault as an error the handlers classify as internal. -/
theorem update_delete_notFound_semantics (s : Store) (p : Product)
    (id : Int) (msg : String) :
    (s.rows.any (fun r => r.id == p.id) = false →
      repoUpdate s none none p = .error "product not found") ∧
    (s.rows.any (fun r => r.id == p.id) = true →
      ∃ s2 p2, repoUpdate s none none p = .ok (s2, p2)) ∧
    (repoUpdate s (some msg) none p =
        .error ("failed to update product: " ++ msg) ∧
      classifyRepoError ("failed to update product: " ++ msg) =
        .internalFault) ∧
    (repoUpdate s none (some msg) p =
        .error ("failed to get rows affected: " ++ msg) ∧
      classifyRepoError ("failed to get rows affected: " ++ msg) =
        .internalFault) ∧
    (s.rows.any (fun r => r.id == id) = false →
      repoDelete s none none id = .error "product not found") ∧
    (s.rows.any (fun r => r.id == id) = true →
      ∃ s2, repoDelete s none none id = .ok s2) ∧
    (repoDelete s (some msg) none id =
        .error ("failed to delete product: " ++ msg) ∧
      classifyRepoError ("failed to delete product: " ++ msg) =
        .internalFault) ∧
    (repoDelete s none (some msg) id =
        .error ("failed to get rows affected: " ++ msg) ∧
      classifyRepoError ("failed to get rows affected: " ++ msg) =
        .internalFault) ∧
    classifyRepoError "product not found" = .notFound := by
  refine ⟨fun h => ?_, fun h => ?_, ⟨rfl, ?_⟩, ⟨rfl, ?_⟩, fun h => ?_,
    fun h => ?_, ⟨rfl, ?_⟩, ⟨rfl, ?_⟩, rfl⟩
  · simp [repoUpdate, h]
  · exact ⟨{ s with
        rows := s.rows.map (updateRow { p with updatedAt := s.now })
        now := s.now + 1 },
      { p with updatedAt := s.now }, by simp [repoUpdate, h]⟩
  · exact classify_wrapped_internal _ _ (by decide)
  · exact classify_wrapped_internal _ _ (by decide)
  · simp [repoDelete, h]
  · exact ⟨{ s with
        rows := s.rows.filter (fun r => !(r.id == id))
        now := s.now + 1 }, by simp [repoDelete, h]⟩
  · exact classify_wrapped_internal _ _ (by decide)
  · exact classify_wrapped_internal _ _ (by decide)

/-- Witness for C4 on a concrete one-row store (row id 1). -/
theorem update_delete_notFound_semantics_witness :
    repoUpdate demoStore none none ({ mkProduct "B" "Beta" with id := 5 }) =
      .error "product not found" ∧
    (∃ s2 p2, repoUpdate demoStore none none
      ({ mkProduct "B" "Beta" with id := 1 }) = .ok (s2, p2)) ∧
    (∃ s2, repoDelete demoStore none none 1 = .ok s2) ∧
    repoDelete demoStore none none 7 = .error "product not found" := by
  refine ⟨?_, ?_, ?_, ?_⟩
  · exact (update_delete_notFound_semantics demoStore
      ({ mkProduct "B" "Beta" with id := 5 }) 1 "x").1 (by decide)
  · exact (update_delete_notFound_semantics demoStore
      ({ mkProduct "B" "Beta" with id := 1 }) 1 "x").2.1 (by decide)
  · exact (update_delete_notFound_semantics demoStore
      (mkProduct "B" "Beta") 1 "x").2.2.2.2.2.1 (by decide)
  · exact (update_delete_notFound_semantics demoStore
      (mkProduct "B" "Beta") 7 "x").2.2.2.2.1 (by decide)

/-- C5: a successful `Update` overwrites every mutable field of the
matching row and refreshes its update timestamp, while the id and
created timestamp — and every other row — are left unchanged. -/
theorem update_overwrites_and_frames (s : Store) (p : Product)
    (h : s.rows.any (fun r => r.id == p.id) = true) :
    ∃ s2 p2,
      repoUpdate s none none p = .ok (s2, p2) ∧
      p2.updatedAt = s.now ∧
      s2.rows.length = s.rows.length ∧
      ∀ i, i < s.rows.length →
        ∃ old nw, s.rows[i]? = some old ∧ s2.rows[i]? = some nw ∧
          nw.id = old.id ∧ nw.createdAt = old.createdAt ∧
          (old.id = p.id →
            nw.sku = p.sku ∧ nw.name = p.name ∧
            nw.description = p.description ∧ nw.quantity = p.quantity ∧
            nw.unitPrice = p.unitPrice ∧ nw.updatedAt = s.now) ∧
          (old.id ≠ p.id → nw = old) := by
  refine ⟨{ s with
      rows := s.rows.map (updateRow { p with updatedAt := s.now })
      now := s.now + 1 },
    { p with updatedAt := s.now }, by simp [repoUpdate, h], rfl, by simp, ?_⟩
  intro i hi
  refine ⟨s.rows[i], updateRow { p with updatedAt := s.now } s.rows[i],
    List.getElem?_eq_getElem hi, ?_, ?_, ?_, ?_, ?_⟩
  · simp [List.getElem?_eq_getElem, hi]
  · unfold updateRow; split <;> rfl
  · unfold updateRow; split <;> rfl
  · intro hid
    simp [updateRow, hid]
  · intro hid
    simp [updateRow, beq_iff_eq, hid]

/-- Witness for C5 on the one-row store: row id 1 is overwritten. -/
theorem update_overwrites_and_frames_witness :
    ∃ s2 p2,
      repoUpdate demoStore none none
        ({ mkProduct "B" "Beta" with id := 1, quantity := 9 }) =
        .ok (s2, p2) ∧
      p2.updatedAt = demoStore.now ∧
      s2.rows.length = demoStore.rows.length ∧
      ∀ i, i < demoStore.rows.length →
        ∃ old nw, demoStore.rows[i]? = some old ∧ s2.rows[i]? = some nw ∧
          nw.id = old.id ∧ nw.createdAt = old.createdAt ∧
          (old.id = ({ mkProduct "B" "Beta" with id := 1, quantity := 9 } :
              Product).id →
            nw.sku = "B" ∧ nw.name = "Beta" ∧
            nw.description = "" ∧ nw.quantity = 9 ∧
            nw.unitPrice = 0 ∧ nw.updatedAt = demoStore.now) ∧
          (old.id ≠ ({ mkProduct "B" "Beta" with id := 1, quantity := 9 } :
              Product).id → nw = old) :=
  update_overwrites_and_frames demoStore
    ({ mkProduct "B" "Beta" with id := 1, quantity := 9 }) (by decide)

/-- C8: a successful `Create` stamps both timestamps with the clock at
the moment of the call (hence equal), and hands back the store-assigned
identifier, which is non-zero whenever the id sequence is positive. -/
theorem create_assigns_id_and_timestamps (s : Store) (p : Product)
    (h0 : 0 < s.nextId)
    (h : s.rows.any (fun r => r.sku == p.sku) = false) :
    ∃ s2 p2, repoCreate s none p = .ok (s2, p2) ∧
      p2.createdAt = s.now ∧ p2.updatedAt = s.now ∧
      p2.createdAt = p2.updatedAt ∧
      p2.id = s.nextId ∧ p2.id ≠ 0 ∧
      s2.nextId = s.nextId + 1 ∧ s2.rows = s.rows ++ [p2] := by
  refine ⟨{ s with
      rows := s.rows ++ [{ p with
        createdAt := s.now
        updatedAt := s.now
        id := s.nextId }]
      nextId := s.nextId + 1
      now := s.now + 1 },
    { p with createdAt := s.now, updatedAt := s.now, id := s.nextId },
    by simp [repoCreate, h], rfl, rfl, rfl, rfl,
    by show s.nextId ≠ 0; omega, rfl, rfl⟩

/-- Witness for C8: creating SKU B in the one-row store. -/
theorem create_assigns_id_and_timestamps_witness :
    ∃ s2 p2, repoCreate demoStore none (mkProduct "B" "Beta") =
        .ok (s2, p2) ∧
      p2.createdAt = demoStore.now ∧ p2.updatedAt = demoStore.now ∧
      p2.createdAt = p2.updatedAt ∧
      p2.id = demoStore.nextId ∧ p2.id ≠ 0 ∧
      s2.nextId = demoStore.nextId + 1 ∧ s2.rows = demoStore.rows ++ [p2] :=
  create_assigns_id_and_timestamps demoStore (mkProduct "B" "Beta")
    (by decide) (by decide)

/-- C1 counterexample: on a store already holding SKU `A`, the
data-access `Create` fails with the same uniformly wrapped error shape
as any other persistence failure — the only discriminator the handlers have
classifies both the uniqueness violation and an injected connection
fault as internal — and when the pre-check lookup cannot run, the
handler maps the duplicate-SKU create failure to 500, not 409. -/
theorem create_conflict_not_distinguishable :
    repoCreate demoStore none (mkProduct "A" "Dup") =
      .error ("failed to create product: " ++ dupKeyMsg) ∧
    classifyRepoError ("failed to create product: " ++ dupKeyMsg) =
      .internalFault ∧
    repoCreate demoStore (some "connection reset") (mkProduct "B" "Beta") =
      .error ("failed to create product: " ++ "connection reset") ∧
    classifyRepoError ("failed to create product: " ++ "connection reset") =
      .internalFault ∧
    (CreateProduct demoStore (some "lookup timed out") none
        (some (mkProduct "A" "Dup"))).1 =
      errResponse 500 "Failed to create product" := by
  refine ⟨rfl, ?_, rfl, ?_, by decide⟩
  · exact classify_wrapped_internal _ _ (by decide)
  · exact classify_wrapped_internal _ _ (by decide)

/-- C1 amended: `Create` wraps every persistence failure — the SKU
uniqueness violation included — into one and the same Internal-shaped
error; no Conflict-distinguishable value leaves the data-access layer,
and the 409 arises only from the `GetBySKU` pre-check of the handler
succeeding. -/
theorem create_failures_uniformly_internal (s : Store) (p : Product)
    (msg : String) (createFault : Option String) :
    (s.rows.any (fun r => r.sku == p.sku) = true →
      repoCreate s none p =
        .error ("failed to create product: " ++ dupKeyMsg) ∧
      classifyRepoError ("failed to create product: " ++ dupKeyMsg) =
        .internalFault) ∧
    (repoCreate s (some msg) p =
        .error ("failed to create product: " ++ msg) ∧
      classifyRepoError ("failed to create product: " ++ msg) =
        .internalFault) ∧
    (p.sku ≠ "" → p.name ≠ "" →
      s.rows.any (fun r => r.sku == p.sku) = true →
      (CreateProduct s none createFault (some p)).1 =
        errResponse 409 "Product with this SKU already exists") := by
  refine ⟨fun h => ⟨by simp [repoCreate, h], ?_⟩,
    ⟨rfl, ?_⟩, fun hsku hname h => ?_⟩
  · exact classify_wrapped_internal _ _ (by decide)
  · exact classify_wrapped_internal _ _ (by decide)
  · obtain ⟨r, hr, hrsku⟩ := List.any_eq_true.mp h
    have hfind : ∃ q, s.rows.find? (fun r => r.sku == p.sku) = some q := by
      have : (s.rows.find? (fun r => r.sku == p.sku)).isSome := by
        rw [List.find?_isSome]
        exact ⟨r, hr, hrsku⟩
      exact Option.isSome_iff_exists.mp this
    obtain ⟨q, hq⟩ := hfind
    simp [CreateProduct, hsku, hname, repoGetBySKU, hq]

/-- Witness for the amended C1 at a concrete duplicate-SKU store. -/
theorem create_failures_uniformly_internal_witness :
    repoCreate demoStore none ({ mkProduct "A" "Dup" with quantity := 3 }) =
      .error ("failed to create product: " ++ dupKeyMsg) ∧
    (CreateProduct demoStore none none
        (some ({ mkProduct "A" "Dup" with quantity := 3 }))).1 =
      errResponse 409 "Product with this SKU already exists" :=
  ⟨((create_failures_uniformly_internal demoStore
      ({ mkProduct "A" "Dup" with quantity := 3 }) "x" none).1 (by decide)).1,
   (create_failures_uniformly_internal demoStore
      ({ mkProduct "A" "Dup" with quantity := 3 }) "x" none).2.2
      (by decide) (by decide) (by decide)⟩

/-- C10: the create handler discards any `GetBySKU` pre-check failure —
an internal lookup fault included — and invokes `Create` anyway; the
409 is produced exactly when the pre-check lookup succeeds. -/
theorem create_precheck_error_discarded (s : Store) (msg : String)
    (p : Product) (hsku : p.sku ≠ "") (hname : p.name ≠ "") :
    (s.rows.any (fun r => r.sku == p.sku) = false →
      ∃ s2 q, CreateProduct s (some msg) none (some p) =
        ({ status := 201
           message := "Product created successfully"
           payload := .one q
           pagination := none }, s2)) ∧
    (∀ cmsg, CreateProduct s (some msg) (some cmsg) (some p) =
      (errResponse 500 "Failed to create product", s)) ∧
    (∀ skuFault, (CreateProduct s skuFault none (some p)).1.status = 409 ↔
      ∃ q, repoGetBySKU s skuFault p.sku = .ok q) := by
  refine ⟨fun h => ?_, fun cmsg => ?_, fun skuFault => ?_⟩
  · exact ⟨{ s with
        rows := s.rows ++ [{ p with
          createdAt := s.now
          updatedAt := s.now
          id := s.nextId }]
        nextId := s.nextId + 1
        now := s.now + 1 },
      { p with createdAt := s.now, updatedAt := s.now, id := s.nextId },
      by simp [CreateProduct, hsku, hname, repoGetBySKU, repoCreate, h]⟩
  · simp [CreateProduct, hsku, hname, repoGetBySKU, repoCreate]
  · constructor
    · intro h409
      cases hg : repoGetBySKU s skuFault p.sku with
      | ok q => exact ⟨q, rfl⟩
      | error e =>
          exfalso
          cases hc : repoCreate s none p with
          | ok out =>
              obtain ⟨s2, q⟩ := out
              simp [CreateProduct, hsku, hname, hg, hc] at h409
          | error e2 =>
              simp [CreateProduct, hsku, hname, hg, hc, errResponse] at h409
    · intro ⟨q, hq⟩
      simp [CreateProduct, hsku, hname, hq, errResponse]

/-- Witness for C10: with the lookup faulted, a fresh SKU is still
created (201) and an injected create fault yields 500; the 409 arises
exactly when the lookup succeeds. -/
theorem create_precheck_error_discarded_witness :
    (∃ s2 q, CreateProduct demoStore (some "timeout") none
      (some (mkProduct "B" "Beta")) =
      ({ status := 201
         message := "Product created successfully"
         payload := .one q
         pagination := none }, s2)) ∧
    CreateProduct demoStore (some "timeout") (some "down")
      (some (mkProduct "B" "Beta")) =
      (errResponse 500 "Failed to create product", demoStore) ∧
    ((CreateProduct demoStore none none
        (some (mkProduct "A" "Dup"))).1.status = 409 ↔
      ∃ q, repoGetBySKU demoStore none "A" = .ok q) :=
  ⟨(create_precheck_error_discarded demoStore "timeout"
      (mkProduct "B" "Beta") (by decide) (by decide)).1 (by decide),
   (create_precheck_error_discarded demoStore "timeout"
      (mkProduct "B" "Beta") (by decide) (by decide)).2.1 "down",
   (create_precheck_error_discarded demoStore "x"
      (mkProduct "A" "Dup") (by decide) (by decide)).2.2 none⟩

/-- A string with a successful parse is not the empty string. -/
theorem atoi_ne_empty {s : String} {v : Int} (h : atoi s = some v) :
    s ≠ "" := by
  intro he
  rw [he, atoi_empty] at h
  exact Option.noConfusion h

/-- C2: GET by id — an unparseable id yields 400 with no dependence on
the store or its faults (the data-access layer is never consulted); a
numeric id with no matching row makes `GetByID` fail with the not-found
value and the handler answer 404; any other data-access fault yields
500; success yields 200 with the matching record. -/
theorem getProduct_status_mapping (s s2 : Store)
    (fault fault2 : Option String) (idStr : String) (id : Int)
    (p : Product) (msg : String) :
    (atoi idStr = none →
      (GetProduct s fault idStr).status = 400 ∧
      GetProduct s fault idStr = GetProduct s2 fault2 idStr) ∧
    (atoi idStr = some id → s.rows.find? (fun r => r.id == id) = none →
      repoGetByID s none id = .error "product not found" ∧
      GetProduct s none idStr = errResponse 404 "Product not found") ∧
    (atoi idStr = some id →
      GetProduct s (some msg) idStr =
        errResponse 500 "Failed to retrieve product") ∧
    (atoi idStr = some id → s.rows.find? (fun r => r.id == id) = some p →
      GetProduct s none idStr =
        { status := 200
          message := "Product retrieved successfully"
          payload := .one p
          pagination := none }) := by
  refine ⟨fun h => ?_, fun hid hfind => ?_, fun hid => ?_,
    fun hid hfind => ?_⟩
  · by_cases he : idStr = "" <;> simp [GetProduct, he, h, errResponse]
  · have hne := atoi_ne_empty hid
    constructor
    · simp [repoGetByID, hfind]
    · simp [GetProduct, hne, hid, repoGetByID, hfind, errResponse]
  · have hne := atoi_ne_empty hid
    have hx := append_ne_notFound "failed to get product: " msg (by decide)
    simp [GetProduct, hne, hid, repoGetByID, hx]
  · have hne := atoi_ne_empty hid
    simp [GetProduct, hne, hid, repoGetByID, hfind]

/-- Witness for C2 on the one-row store (row id 1). -/
theorem getProduct_status_mapping_witness :
    (GetProduct demoStore none "abc").status = 400 ∧
    (GetProduct demoStore (some "boom") "").status = 400 ∧
    GetProduct demoStore none "99" = errResponse 404 "Product not found" ∧
    GetProduct demoStore (some "timeout") "1" =
      errResponse 500 "Failed to retrieve product" ∧
    (GetProduct demoStore none "1").status = 200 := by
  refine ⟨?_, ?_, ?_, ?_, ?_⟩
  · exact ((getProduct_status_mapping demoStore demoStore none none "abc" 0
      (mkProduct "A" "Alpha") "x").1 (by decide)).1
  · exact ((getProduct_status_mapping demoStore demoStore (some "boom")
      (some "boom") "" 0 (mkProduct "A" "Alpha") "x").1 (by decide)).1
  · exact ((getProduct_status_mapping demoStore demoStore none none "99" 99
      (mkProduct "A" "Alpha") "x").2.1 (by decide) (by decide)).2
  · exact (getProduct_status_mapping demoStore demoStore none none "1" 1
      (mkProduct "A" "Alpha") "timeout").2.2.1 (by decide)
  · rw [(getProduct_status_mapping demoStore demoStore none none "1" 1
      ({ mkProduct "A" "Alpha" with id := 1 }) "x").2.2.2 (by decide)
      (by decide)]

/-- C9: for a PUT with a numeric path id and a body carrying non-empty
SKU and name, the path id overwrites the id of the decoded record (whatever
id the body carried gives the same outcome), `Update` runs with that
id, and success answers 200 with the updated record. -/
theorem updateProduct_path_id_overrides (s : Store) (idStr : String)
    (id : Int) (decoded : Product)
    (hid : atoi idStr = some id)
    (hsku : decoded.sku ≠ "") (hname : decoded.name ≠ "")
    (hrow : s.rows.any (fun r => r.id == id) = true) :
    (∀ j, UpdateProduct s none none idStr
        (some { decoded with id := j }) =
      UpdateProduct s none none idStr (some decoded)) ∧
    UpdateProduct s none none idStr (some decoded) =
      ({ status := 200
         message := "Product updated successfully"
         payload := .one { decoded with id := id, updatedAt := s.now }
         pagination := none },
       { s with
         rows := s.rows.map
           (updateRow { decoded with id := id, updatedAt := s.now })
         now := s.now + 1 }) := by
  have hne := atoi_ne_empty hid
  constructor
  · intro j
    simp only [UpdateProduct, hne, hid]
  · simp [UpdateProduct, hne, hid, hsku, hname, repoUpdate, hrow]

/-- Witness for C9: PUT /products/1 with a body claiming id 42 behaves
exactly like one with no id and succeeds with 200. -/
theorem updateProduct_path_id_overrides_witness :
    UpdateProduct demoStore none none "1"
        (some ({ mkProduct "B" "Beta" with id := 42 })) =
      UpdateProduct demoStore none none "1" (some (mkProduct "B" "Beta")) ∧
    (UpdateProduct demoStore none none "1"
        (some (mkProduct "B" "Beta"))).1.status = 200 := by
  have h := updateProduct_path_id_overrides demoStore "1" 1
    (mkProduct "B" "Beta") (by decide) (by decide) (by decide) (by decide)
  exact ⟨h.1 42, by rw [h.2]⟩

/-- C3: the effective limit is 50 when the parameter is absent,
non-numeric or non-positive, the parsed value when in (0,100], and 100
above that; the effective offset is 0 when absent, non-numeric or
negative, else the parsed value; the 200 response passes these
effective values to the list query and echoes them in the pagination
metadata. -/
theorem listProducts_window_defaults (s : Store)
    (limitParam offsetParam : String) (v w : Int) :
    ((limitParam = "" ∨ atoi limitParam = none ∨
        (atoi limitParam = some v ∧ v ≤ 0)) →
      effectiveLimit limitParam = 50) ∧
    (atoi limitParam = some v → 100 < v →
      effectiveLimit limitParam = 100) ∧
    (atoi limitParam = some v → 0 < v → v ≤ 100 →
      effectiveLimit limitParam = v) ∧
    ((offsetParam = "" ∨ atoi offsetParam = none ∨
        (atoi offsetParam = some w ∧ w < 0)) →
      effectiveOffset offsetParam = 0) ∧
    (atoi offsetParam = some w → 0 ≤ w →
      effectiveOffset offsetParam = w) ∧
    (∀ ps total,
      repoList s none (effectiveLimit limitParam)
        (effectiveOffset offsetParam) = .ok ps →
      repoCount s none = .ok total →
      ListProducts s none none limitParam offsetParam =
        { status := 200
          message := "Products retrieved successfully"
          payload := .many ps
          pagination := some { limit := effectiveLimit limitParam
                               offset := effectiveOffset offsetParam
                               total := total } }) := by
  refine ⟨fun h => ?_, fun h hv => ?_, fun h hv1 hv2 => ?_,
    fun h => ?_, fun h hw => ?_, fun ps total hl hc => ?_⟩
  · rcases h with he | hn | ⟨hp, hv⟩
    · simp [effectiveLimit, he]
    · by_cases he : limitParam = "" <;> simp [effectiveLimit, he, hn]
    · have hne := atoi_ne_empty hp
      simp [effectiveLimit, hne, hp]
      omega
  · have hne := atoi_ne_empty h
    simp [effectiveLimit, hne, h]
    omega
  · have hne := atoi_ne_empty h
    simp [effectiveLimit, hne, h, hv1, show ¬(100 < v) by omega]
  · rcases h with he | hn | ⟨hp, hw⟩
    · simp [effectiveOffset, he]
    · by_cases he : offsetParam = "" <;> simp [effectiveOffset, he, hn]
    · have hne := atoi_ne_empty hp
      simp [effectiveOffset, hne, hp]
      omega
  · have hne := atoi_ne_empty h
    simp [effectiveOffset, hne, h, hw]
  · simp [ListProducts, hl, hc]

/-- Witness for C3 at concrete query parameters, including the 200
response on the one-row store. -/
theorem listProducts_window_defaults_witness :
    effectiveLimit "" = 50 ∧ effectiveLimit "abc" = 50 ∧
    effectiveLimit "-5" = 50 ∧ effectiveLimit "0" = 50 ∧
    effectiveLimit "500" = 100 ∧ effectiveLimit "70" = 70 ∧
    effectiveOffset "" = 0 ∧ effectiveOffset "xyz" = 0 ∧
    effectiveOffset "-1" = 0 ∧ effectiveOffset "7" = 7 ∧
    ListProducts demoStore none none "500" "-1" =
      { status := 200
        message := "Products retrieved successfully"
        payload := .many [{ mkProduct "A" "Alpha" with id := 1 }]
        pagination := some { limit := 100, offset := 0, total := 1 } } := by
  refine ⟨?_, ?_, ?_, ?_, ?_, ?_, ?_, ?_, ?_, ?_, ?_⟩
  · exact (listProducts_window_defaults demoStore "" "" 0 0).1 (Or.inl rfl)
  · exact (listProducts_window_defaults demoStore "abc" "" 0 0).1
      (Or.inr (Or.inl (by decide)))
  · exact (listProducts_window_defaults demoStore "-5" "" (-5) 0).1
      (Or.inr (Or.inr ⟨by decide, by decide⟩))
  · exact (listProducts_window_defaults demoStore "0" "" 0 0).1
      (Or.inr (Or.inr ⟨by decide, by decide⟩))
  · exact (listProducts_window_defaults demoStore "500" "" 500 0).2.1
      (by decide) (by decide)
  · exact (listProducts_window_defaults demoStore "70" "" 70 0).2.2.1
      (by decide) (by decide) (by decide)
  · exact (listProducts_window_defaults demoStore "" "" 0 0).2.2.2.1
      (Or.inl rfl)
  · exact (listProducts_window_defaults demoStore "" "xyz" 0 0).2.2.2.1
      (Or.inr (Or.inl (by decide)))
  · exact (listProducts_window_defaults demoStore "" "-1" 0 (-1)).2.2.2.1
      (Or.inr (Or.inr ⟨by decide, by decide⟩))
  · exact (listProducts_window_defaults demoStore "" "7" 0 7).2.2.2.2.1
      (by decide) (by decide)
  · exact (listProducts_window_defaults demoStore "500" "-1" 500
      (-1)).2.2.2.2.2 [{ mkProduct "A" "Alpha" with id := 1 }] 1 rfl rfl

instance : IsTotal Product (fun a b => b.createdAt ≤ a.createdAt) :=
  ⟨fun a b => Nat.le_total b.createdAt a.createdAt⟩

instance : IsTrans Product (fun a b => b.createdAt ≤ a.createdAt) :=
  ⟨fun _ _ _ hab hbc => Nat.le_trans hbc hab⟩

/-- C6: for a valid window, `List` returns exactly the rows sorted by
creation time descending, cut to the offset/limit window — a sequence
itself sorted descending and drawn from a permutation of the stored
rows — and on the store built by creating A,B,C,D,E in sequence the
five windows of the claim come out as stated. -/
theorem list_ordered_window (s : Store) (limit offset : Int)
    (h1 : 0 ≤ limit) (h2 : 0 ≤ offset) :
    (repoList s none limit offset =
      .ok (((sortByCreatedDesc s.rows).drop offset.toNat).take
        limit.toNat) ∧
     List.Sorted (fun a b => b.createdAt ≤ a.createdAt)
       (((sortByCreatedDesc s.rows).drop offset.toNat).take
         limit.toNat) ∧
     (sortByCreatedDesc s.rows).Perm s.rows) ∧
    (repoList store5 none 2 0).map (fun l => l.map Product.sku) =
      .ok ["E", "D"] ∧
    (repoList store5 none 2 2).map (fun l => l.map Product.sku) =
      .ok ["C", "B"] ∧
    (repoList store5 none 2 4).map (fun l => l.map Product.sku) =
      .ok ["A"] ∧
    (repoList store5 none 10 0).map (fun l => l.map Product.sku) =
      .ok ["E", "D", "C", "B", "A"] ∧
    (repoList store5 none 10 10).map (fun l => l.map Product.sku) =
      .ok [] := by
  refine ⟨⟨?_, ?_, List.perm_insertionSort _ _⟩, rfl, rfl, rfl, rfl, rfl⟩
  · simp only [repoList]
    rw [if_neg (show ¬(limit < 0 ∨ offset < 0) by omega)]
  · exact List.Pairwise.sublist
      ((List.take_sublist _ _).trans (List.drop_sublist _ _))
      (List.sorted_insertionSort _ s.rows)

/-- Witness for C6 at the concrete window (3,1) on the five-row
store. -/
theorem list_ordered_window_witness :
    repoList store5 none 3 1 =
      .ok (((sortByCreatedDesc store5.rows).drop 1).take 3) ∧
    List.Sorted (fun a b => b.createdAt ≤ a.createdAt)
      (((sortByCreatedDesc store5.rows).drop 1).take 3) :=
  ⟨((list_ordered_window store5 3 1 (by decide) (by decide)).1).1,
   ((list_ordered_window store5 3 1 (by decide) (by decide)).1).2.1⟩

/-- C7: a window lying beyond the available rows makes `List` return
the empty sequence, never a failure value. -/
theorem list_beyond_rows_empty (s : Store) (limit offset : Int)
    (h1 : 0 ≤ limit) (h2 : 0 ≤ offset)
    (h3 : s.rows.length ≤ offset.toNat) :
    repoList s none limit offset = .ok [] := by
  simp only [repoList]
  rw [if_neg (show ¬(limit < 0 ∨ offset < 0) by omega)]
  have hlen : (sortByCreatedDesc s.rows).length = s.rows.length :=
    (List.perm_insertionSort _ s.rows).length_eq
  have hd : (sortByCreatedDesc s.rows).drop offset.toNat = [] :=
    List.drop_eq_nil_of_le (by omega)
  rw [hd, List.take_nil]

/-- Witness for C7: offset 10 on the five-row store. -/
theorem list_beyond_rows_empty_witness :
    repoList store5 none 10 10 = .ok [] :=
  list_beyond_rows_empty store5 10 10 (by decide) (by decide) (by decide)
